import Mathlib

/-!
Shallow embedding of the legal-research demo application
(`markdown.py` and `webapp.py`) and proofs about its formatters and
pipeline orchestrator.

Conventions of the embedding:
* Python floats are modelled as rationals (`ℚ`); `f"{x:.2f}"` is modelled
  by a round-half-even two-decimal formatter (`fmt2`), matching CPython's
  formatting of exactly representable ties.
* Python dicts whose shape the formatters inspect are modelled as
  structures with `Option` fields (`none` = key absent / value `None`);
  Python truthiness of `x or y` on strings is modelled by `orFalsy`
  (`none` and `""` are falsy).
* `str.join` is modelled by `joinSep`.
* The three positive normalisation branches of `lra_to_markdown`
  (`model_dump`, `dict()`, `isinstance(dict)`) all yield a field
  dictionary used identically, so they are collapsed into the single
  constructor `LraInput.record`; the final `else` branch is
  `LraInput.unstructured`.
* Exceptions are modelled by `Except`; the agent calls of `run_pipeline`
  are parameters (they are external collaborators).
-/

/-- `sep.join(items)` for Python lists of strings. -/
def joinSep (sep : String) : List String → String
  | [] => ""
  | [x] => x
  | x :: y :: xs => x ++ sep ++ joinSep sep (y :: xs)

/-- Python `a or b` where `a` is an optional string: `None` and `""` are
falsy and fall through to `b`. -/
def orFalsy (a : Option String) (b : String) : String :=
  match a with
  | some s => if s = "" then b else s
  | none => b

/-- Zero-padded two-digit rendering of `k < 100`, the fractional part of a
`%.2f` format. -/
def pad2 (k : Nat) : String :=
  if k < 10 then "0" ++ toString k else toString k

/-- Round to the nearest integer, ties to even — the rounding CPython's
fixed-point float formatting performs on exactly representable ties. -/
def roundHalfEven (q : ℚ) : ℤ :=
  let n : ℤ := q.floor
  if q - n < 1/2 then n
  else if 1/2 < q - n then n + 1
  else if n % 2 = 0 then n else n + 1

/-- Model of the Python format `f"{score:.2f}"`. -/
def fmt2 (q : ℚ) : String :=
  let n : ℤ := roundHalfEven (q * 100)
  let sign := if n < 0 then "-" else ""
  let m := n.natAbs
  sign ++ toString (m / 100) ++ "." ++ pad2 (m % 100)

/-! ## Data model (`markdown.py`, pydantic classes)

`Citation` and `LegalResearchAnswer` mirror the pydantic models.  Pydantic
performs no range validation on `confidence_score`: the field is a bare
`float` whose `description` string documents "0.0 to 1.0" but imposes no
constraint, so the Lean field is an unconstrained `ℚ`. -/

inductive SourceType where
  | case | statute | regulation | treatise | article | other
deriving DecidableEq, Repr

structure Citation where
  source_type : SourceType
  title : String
  citation : String
  jurisdiction : Option String := none
  link : Option String := none
  citation_summary : String
  SCC_citation : Bool

structure LegalResearchAnswer where
  issue : String
  short_answer : String
  rule : String
  analysis : String
  conclusion : String
  citations : List Citation := []
  judgement : Option String := none
  confidence_score : ℚ

/-! ## `lra_to_markdown` (`markdown.py`)

The function normalises its argument to a dictionary `d` (or bails out
with a fixed placeholder) and then reads fields with `d.get(...)`.  The
dictionary is modelled by `AnswerDict`/`CitationDict` with `Option`
fields. -/

/-- One citation entry as the formatter sees it: a dictionary accessed
with `.get`, every key possibly absent. -/
structure CitationDict where
  source_type : Option String := none
  title : Option String := none
  citation : Option String := none
  jurisdiction : Option String := none
  link : Option String := none
  citation_summary : Option String := none
  SCC_citation : Option Bool := none

/-- The answer value as the formatter sees it after normalisation. -/
structure AnswerDict where
  issue : Option String := none
  short_answer : Option String := none
  rule : Option String := none
  analysis : Option String := none
  conclusion : Option String := none
  citations : Option (List CitationDict) := none
  judgement : Option String := none
  confidence_score : Option ℚ := none

/-- Input of `lra_to_markdown`: either a value that normalises to field
access (`model_dump`/`dict()`/plain dict — all three branches produce a
dictionary used identically) or anything else, kept as its text
representation. -/
inductive LraInput where
  | record (d : AnswerDict)
  | unstructured (repr : String)

/-- Python `str.strip()`: remove leading and trailing whitespace,
modelled over the character list.  (Python strips a slightly larger
whitespace set than ASCII space/tab/newline/CR; the difference is
immaterial to every property below.) -/
def pyStrip (s : String) : String :=
  ⟨((s.data.dropWhile Char.isWhitespace).reverse.dropWhile Char.isWhitespace).reverse⟩

/-- `(d.get(key) or '').strip()` for a text field. -/
def strippedField (o : Option String) : String :=
  pyStrip (orFalsy o "")

/-- The title variable of a citation bullet: `c.get("title") or "Source"`. -/
def citTitle (c : CitationDict) : String :=
  orFalsy c.title "Source"

/-- One citation bullet line, mirroring the loop body of the citations
section. -/
def citationLine (c : CitationDict) : String :=
  let title := citTitle c
  let cite := orFalsy c.citation ""
  let link := orFalsy c.link ""
  let juris := orFalsy c.jurisdiction ""
  let scc := if c.SCC_citation = some true then "⭐ SCC" else ""
  let meta := joinSep " • " (([cite, juris, scc]).filter (fun b => b ≠ ""))
  let label := if link ≠ "" then "[" ++ title ++ "](" ++ link ++ ")" else title
  "- " ++ label ++ (if meta ≠ "" then " — " ++ meta else "")

/-- The five core sections with their separators, in the order the code
appends them to `md`. -/
def coreBlocks (d : AnswerDict) : List String :=
  ["#### 📋 Issue\n" ++ strippedField d.issue,
   "---",
   "#### 💡 Short Answer\n" ++ strippedField d.short_answer,
   "---",
   "#### ⚖️ Legal Rule\n" ++ strippedField d.rule,
   "---",
   "#### 🔍 Analysis\n" ++ strippedField d.analysis,
   "---",
   "#### ✅ Conclusion\n" ++ strippedField d.conclusion]

/-- Blocks appended for the citations section: `cits = d.get("citations")
or []` followed by `if isinstance(cits, list) and cits:`. -/
def citationBlocks (d : AnswerDict) : List String :=
  match d.citations with
  | none => []
  | some [] => []
  | some (c :: cs) =>
      ["---", "#### 📚 Citations", joinSep "\n" ((c :: cs).map citationLine)]

/-- The severity marker chosen for a confidence score:
`"🟢" if score >= 0.8 else "🟡" if score >= 0.5 else "🔴"`. -/
def confEmoji (s : ℚ) : String :=
  if s ≥ 8/10 then "🟢" else if s ≥ 1/2 then "🟡" else "🔴"

/-- The confidence metadata item, appended when the key is present, i.e.
not `None` — the code tests `is not None`, not truthiness. -/
def confItems (d : AnswerDict) : List String :=
  match d.confidence_score with
  | some s => [confEmoji s ++ " **Confidence:** " ++ fmt2 s]
  | none => []

/-- The judgement metadata item, appended when `d.get("judgement")` is
truthy. -/
def judgeItems (d : AnswerDict) : List String :=
  match d.judgement with
  | some j => if j = "" then [] else ["⚖️ **Status:** " ++ j]
  | none => []

/-- The metadata items: confidence first, then judgement. -/
def metaItems (d : AnswerDict) : List String :=
  confItems d ++ judgeItems d

/-- Blocks appended for the metadata line (`if meta_items:`). -/
def metaBlocks (d : AnswerDict) : List String :=
  if metaItems d = [] then [] else ["---", joinSep " • " (metaItems d)]

/-- The full `md` list built by `lra_to_markdown` for a normalised
dictionary. -/
def mdBlocks (d : AnswerDict) : List String :=
  coreBlocks d ++ citationBlocks d ++ metaBlocks d

/-- `lra_to_markdown`: convert a LegalResearchAnswer-shaped value to
Markdown.  Total — the Python function raises on no input in this
domain. -/
def lra_to_markdown : LraInput → String
  | .record d => joinSep "\n\n" (mdBlocks d)
  | .unstructured _ => "``````"

/-! ## `format_retrieved_context` (`markdown.py`) -/

/-- One element of a sequence context: a dictionary (with its Python
`str(item)` representation for the content fallback) or any other value,
kept as its `str` representation. -/
inductive CtxItem where
  | dict (title source content text : Option String) (repr : String)
  | other (repr : String)

/-- A retrieved-context value: dict, list, or anything else (rendered via
`str`). The mapping's entry list is its iteration order. -/
inductive RetrievedContext where
  | mapping (entries : List (String × String))
  | sequence (items : List CtxItem)
  | plain (repr : String)

/-- The numbered block for element `i` (1-based) of a sequence context. -/
def ctxItemBlock (i : Nat) : CtxItem → String
  | .dict title source content text r =>
      let t := orFalsy title (orFalsy source ("Document " ++ toString i))
      let c := orFalsy content (orFalsy text r)
      "\n**" ++ toString i ++ ". " ++ t ++ "**\n> " ++ c
  | .other r => "\n**" ++ toString i ++ ".**\n> " ++ r

/-- The `for i, item in enumerate(context, 1)` loop, appending one block
per element to `lines`. -/
def seqLoop : Nat → List String → List CtxItem → List String
  | _, lines, [] => lines
  | i, lines, item :: rest => seqLoop (i + 1) (lines ++ [ctxItemBlock i item]) rest

/-- The flattened form of the numbering loop: the block list it appends,
1-based from `i`. -/
def numberedBlocks : Nat → List CtxItem → List String
  | _, [] => []
  | i, item :: rest => ctxItemBlock i item :: numberedBlocks (i + 1) rest

/-- `format_retrieved_context`: convert retrieved context to readable
Markdown. -/
def format_retrieved_context : RetrievedContext → String
  | .mapping entries =>
      joinSep "\n"
        (entries.foldl (fun lines kv => lines ++ ["- **" ++ kv.1 ++ ":** " ++ kv.2])
          ["**Source documents:**"])
  | .sequence items => joinSep "\n" (seqLoop 1 ["**Source documents:**"] items)
  | .plain r => r

/-! ## `run_pipeline` (`webapp.py`)

The three agent invocations are external collaborators, passed as
parameters.  Failure of a call is an `Except.error`; the `do`-bind on
stages 1 and 2 propagates their errors (they are not caught), while the
stage-3 call sits under the `try/except Exception` and falls back to the
stage-2 candidate. -/

/-- The combined input for the formulation agent (stage 2). -/
def inputForFormulation (q : String) (ctx : String) : String :=
  "Query: " ++ q ++ "\n\nContext:\n" ++ ctx ++ "\n\nSynthesize LegalResearchAnswer per schema."

/-- The combined input for the verification agent (stage 3), built from
the query and the schema-preserving JSON dump of the candidate answer. -/
def verificationInput (q : String) (dump : String) : String :=
  "Query: " ++ q ++ "\n\nAnalysis:\n" ++ dump ++ "\n\nTask: Web-verify via MCP; update if needed; return LegalResearchAnswer."

/-- `run_pipeline`, parameterised over the three agent calls and the two
renderings the code applies to intermediate values (`f"...{ctx}..."` and
`model_dump_json`). -/
def run_pipeline {Ctx Ans Err : Type}
    (retrieve : String → Except Err Ctx) (renderCtx : Ctx → String)
    (formulate : String → Except Err Ans) (dumpAns : Ans → String)
    (verify : String → Except Err Ans)
    (q : String) : Except Err (Ctx × Ans) := do
  let ctx ← retrieve q
  let cand ← formulate (inputForFormulation q (renderCtx ctx))
  match verify (verificationInput q (dumpAns cand)) with
  | .ok v => pure (ctx, v)
  | .error _ => pure (ctx, cand)

/-- A value accepted by the `LegalResearchAnswer` model whose
`confidence_score` is `1.5`: the model performs no range validation. -/
def outOfRangeAnswer : LegalResearchAnswer :=
  { issue := "i", short_answer := "s", rule := "r", analysis := "a",
    conclusion := "c", confidence_score := 3/2 }

/-- An answer dictionary with every key absent: all optional fields
missing. -/
def emptyAnswer : AnswerDict := {}

/-! ## Helper lemmas -/

/-- Joining a nonempty list starts with its first element. -/
lemma joinSep_cons_exists (sep x : String) (xs : List String) :
    ∃ t, joinSep sep (x :: xs) = x ++ t := by
  cases xs with
  | nil => exact ⟨"", by simp [joinSep]⟩
  | cons y ys => exact ⟨sep ++ joinSep sep (y :: ys), by simp [joinSep, String.append_assoc]⟩

/-- Two strings that disagree on their first `n` characters are different,
even after extending the first by an arbitrary suffix. -/
lemma append_left_ne (a s b : String) (n : Nat) (hn : n ≤ a.data.length)
    (h : a.data.take n ≠ b.data.take n) : a ++ s ≠ b := by
  intro he
  apply h
  have hd : a.data ++ s.data = b.data := by
    rw [← he, String.data_append]
  rw [← hd, List.take_append_of_le_length hn]

/-- The mapping loop of `format_retrieved_context` appends the mapped
entry lines to the header. -/
lemma mapping_fold_eq (entries : List (String × String)) :
    ∀ init, entries.foldl (fun lines kv => lines ++ ["- **" ++ kv.1 ++ ":** " ++ kv.2]) init
      = init ++ entries.map (fun kv => "- **" ++ kv.1 ++ ":** " ++ kv.2) := by
  induction entries with
  | nil => intro init; simp
  | cons x xs ih => intro init; rw [List.foldl_cons, ih]; simp

/-- The numbering loop appends exactly the numbered blocks. -/
lemma seqLoop_eq (items : List CtxItem) :
    ∀ (i : Nat) (lines : List String),
      seqLoop i lines items = lines ++ numberedBlocks i items := by
  induction items with
  | nil => intro i lines; simp [seqLoop, numberedBlocks]
  | cons x xs ih =>
      intro i lines
      rw [seqLoop, numberedBlocks, ih]
      simp

/-- One numbered block per element. -/
lemma numberedBlocks_length (items : List CtxItem) :
    ∀ i, (numberedBlocks i items).length = items.length := by
  induction items with
  | nil => intro i; rfl
  | cons x xs ih => intro i; simp [numberedBlocks, ih]

/-- `Rat.floor` agrees with the floor of the ordered field `ℚ`. -/
lemma rat_floor_eq_int_floor (q : ℚ) : q.floor = ⌊q⌋ := by
  rw [Rat.floor_def', Rat.floor_def]

/-- Rounding an integer value is the identity. -/
lemma roundHalfEven_coe (z : ℤ) : roundHalfEven (z : ℚ) = z := by
  unfold roundHalfEven
  rw [rat_floor_eq_int_floor, Int.floor_intCast]
  norm_num

/-- Evaluation of the two-decimal formatter at an exact hundredth. -/
lemma fmt2_eval (q : ℚ) (z : ℤ) (h : q * 100 = (z : ℚ)) :
    fmt2 q = (if z < 0 then "-" else "")
      ++ toString (z.natAbs / 100) ++ "." ++ pad2 (z.natAbs % 100) := by
  unfold fmt2
  rw [h, roundHalfEven_coe]

/-! ## Claim theorems -/

/-- C1: if the Verify stage (stage 3) fails with any exception, the
orchestrator catches it and returns the retrieved context together with
the Formulate-stage candidate answer unchanged; the pipeline result is a
normal return, so no stage-3 exception escapes `run_pipeline`. -/
theorem run_pipeline_stage3_fallback {Ctx Ans Err : Type}
    (retrieve : String → Except Err Ctx) (renderCtx : Ctx → String)
    (formulate : String → Except Err Ans) (dumpAns : Ans → String)
    (verify : String → Except Err Ans)
    (q : String) (ctx : Ctx) (cand : Ans) (e : Err)
    (h1 : retrieve q = Except.ok ctx)
    (h2 : formulate (inputForFormulation q (renderCtx ctx)) = Except.ok cand)
    (h3 : verify (verificationInput q (dumpAns cand)) = Except.error e) :
    run_pipeline retrieve renderCtx formulate dumpAns verify q
      = Except.ok (ctx, cand) := by
  simp [run_pipeline, h1, h2, h3, Except.bind, bind, pure, Except.pure]

/-- Witness for C1 at concrete agents: stage 1 and 2 succeed, stage 3
raises a timeout, and the pipeline returns the candidate unchanged. -/
theorem run_pipeline_stage3_fallback_witness :
    run_pipeline (fun _ => Except.ok "ctx") id (fun _ => Except.ok "cand") id
      (fun _ => (Except.error "timeout" : Except String String)) "q"
      = Except.ok ("ctx", "cand") :=
  run_pipeline_stage3_fallback (fun _ => Except.ok "ctx") id
    (fun _ => Except.ok "cand") id (fun _ => Except.error "timeout")
    "q" "ctx" "cand" "timeout" rfl rfl rfl

/-- C2: when `confidence_score` is present with value `s`, the metadata
items start with the confidence item, which renders `s` with the
two-decimal formatter `fmt2` tagged with exactly one severity marker, and
the marker is 🟢 iff `s ≥ 0.8`, 🟡 iff `0.5 ≤ s < 0.8`, 🔴 iff `s < 0.5`. -/
theorem confidence_marker_thresholds (d : AnswerDict) (s : ℚ)
    (h : d.confidence_score = some s) :
    metaItems d = (confEmoji s ++ " **Confidence:** " ++ fmt2 s) :: judgeItems d
    ∧ (confEmoji s = "🟢" ↔ 8/10 ≤ s)
    ∧ (confEmoji s = "🟡" ↔ 1/2 ≤ s ∧ s < 8/10)
    ∧ (confEmoji s = "🔴" ↔ s < 1/2) := by
  refine ⟨by simp [metaItems, confItems, h], ?_, ?_, ?_⟩
  · unfold confEmoji
    split_ifs with h1 h2
    · exact iff_of_true rfl h1
    · exact iff_of_false (by decide) h1
    · exact iff_of_false (by decide) h1
  · unfold confEmoji
    split_ifs with h1 h2
    · exact iff_of_false (by decide) (fun hc => absurd hc.2 (not_lt.mpr h1))
    · exact iff_of_true rfl ⟨h2, not_le.mp h1⟩
    · exact iff_of_false (by decide) (fun hc => h2 hc.1)
  · unfold confEmoji
    split_ifs with h1 h2
    · exact iff_of_false (by decide) (not_lt.mpr (by linarith))
    · exact iff_of_false (by decide) (not_lt.mpr h2)
    · exact iff_of_true rfl (not_le.mp h2)

/-- Witness for C2 at `s = 0.42`: the low marker and the text `0.42`. -/
theorem confidence_marker_thresholds_witness :
    metaItems { confidence_score := some (42/100) }
      = (confEmoji (42/100) ++ " **Confidence:** " ++ fmt2 (42/100))
        :: judgeItems { confidence_score := some (42/100) }
    ∧ (confEmoji (42/100) = "🟢" ↔ 8/10 ≤ (42/100 : ℚ))
    ∧ (confEmoji (42/100) = "🟡" ↔ 1/2 ≤ (42/100 : ℚ) ∧ (42/100 : ℚ) < 8/10)
    ∧ (confEmoji (42/100) = "🔴" ↔ (42/100 : ℚ) < 1/2) :=
  confidence_marker_thresholds { confidence_score := some (42/100) } (42/100) rfl

/-- C3 counterexample: `outOfRangeAnswer` below is a value of the
`LegalResearchAnswer` model — pydantic performs no range validation on the
bare `float` field — whose `confidence_score` is `1.5 ∉ [0.0, 1.0]`. -/
theorem confidence_score_not_bounded :
    ¬ (0 ≤ outOfRangeAnswer.confidence_score
        ∧ outOfRangeAnswer.confidence_score ≤ 1) := by
  intro hc
  have := hc.2
  rw [show outOfRangeAnswer.confidence_score = 3/2 from rfl] at this
  norm_num at this

/-- C3 amended: the model leaves `confidence_score` unconstrained — every
rational is the `confidence_score` of some `LegalResearchAnswer` value;
the `[0.0, 1.0]` range is documentation only, not an enforced invariant. -/
theorem confidence_score_unconstrained (q : ℚ) :
    ∃ a : LegalResearchAnswer, a.confidence_score = q :=
  ⟨{ issue := "", short_answer := "", rule := "", analysis := "",
     conclusion := "", confidence_score := q }, rfl⟩

/-- C6: any input that is neither a record nor a mapping renders as the
one fixed placeholder string, independent of the input, with no failure. -/
theorem lra_unstructured_placeholder (r : String) :
    lra_to_markdown (LraInput.unstructured r) = "``````" := rfl

/-- C10: a `confidence_score` of exactly `0.0` is treated as present (the
test is is-not-None, not truthiness): the confidence item is rendered with
the low marker and the text `0.00`, and the metadata line is emitted. -/
theorem confidence_zero_is_present (d : AnswerDict)
    (h : d.confidence_score = some 0) :
    metaItems d = "🔴 **Confidence:** 0.00" :: judgeItems d
    ∧ metaBlocks d ≠ [] := by
  have he : confEmoji 0 = "🔴" := by unfold confEmoji; norm_num
  have hf : fmt2 0 = "0.00" := by rw [fmt2_eval 0 0 (by norm_num)]; rfl
  have hhead : confEmoji 0 ++ " **Confidence:** " ++ fmt2 0
      = "🔴 **Confidence:** 0.00" := by rw [he, hf]; rfl
  have hm : metaItems d = "🔴 **Confidence:** 0.00" :: judgeItems d := by
    simp [metaItems, confItems, h, hhead]
  refine ⟨hm, ?_⟩
  simp [metaBlocks, hm]

/-- Witness for C10 at the dictionary holding only `confidence_score = 0`. -/
theorem confidence_zero_is_present_witness :
    metaItems { confidence_score := some 0 }
      = "🔴 **Confidence:** 0.00" :: judgeItems { confidence_score := some 0 }
    ∧ metaBlocks { confidence_score := some 0 } ≠ [] :=
  confidence_zero_is_present { confidence_score := some 0 } rfl

/-- C4 counterexample: for a sequence element that is not a mapping the
code emits `**1.**` with an empty title — it does not synthesize the
`Document 1` title the claim's fallback chain requires. -/
theorem sequence_nondict_no_document_title :
    format_retrieved_context (RetrievedContext.sequence [CtxItem.other "hello"])
      = "**Source documents:**\n\n**1.**\n> hello"
    ∧ 'D' ∉ ("**Source documents:**\n\n**1.**\n> hello").data
    ∧ format_retrieved_context (RetrievedContext.sequence [CtxItem.other "hello"])
        ≠ "**Source documents:**\n\n**1. Document 1**\n> hello" := by
  refine ⟨by rfl, by decide, by decide⟩

/-- C4 amended: a sequence renders as the header followed by one numbered
block per element; for mapping elements the title falls back
`title → source → Document <index>` and the body falls back
`content → text → str(item)`; for non-mapping elements the block is
`**<index>.**` with the element's text representation as body.  Scenario
A holds as stated. -/
theorem sequence_blocks_amended :
    (∀ items, format_retrieved_context (RetrievedContext.sequence items)
        = joinSep "\n" ("**Source documents:**" :: numberedBlocks 1 items))
  ∧ (∀ (i : Nat) (items : List CtxItem),
        (numberedBlocks i items).length = items.length)
  ∧ (∀ (i : Nat) (title source content text : Option String) (r : String),
        ctxItemBlock i (CtxItem.dict title source content text r)
          = "\n**" ++ toString i ++ ". "
            ++ orFalsy title (orFalsy source ("Document " ++ toString i))
            ++ "**\n> " ++ orFalsy content (orFalsy text r))
  ∧ (∀ (i : Nat) (r : String),
        ctxItemBlock i (CtxItem.other r) = "\n**" ++ toString i ++ ".**\n> " ++ r)
  ∧ format_retrieved_context (RetrievedContext.sequence
        [CtxItem.dict (some "Case X") none (some "Held that...") none "(repr)"])
      = "**Source documents:**\n\n**1. Case X**\n> Held that..." := by
  refine ⟨?_, fun i items => numberedBlocks_length items i,
    fun i title source content text r => rfl, fun i r => rfl, by decide⟩
  intro items
  show joinSep "\n" (seqLoop 1 ["**Source documents:**"] items) = _
  rw [seqLoop_eq]
  rfl

/-- C5 counterexample: the rendered mapping block does not begin with the
bare header `Source documents:` and has no line of the bare form
`- <key>: <value>` — both carry Markdown bold markers. -/
theorem mapping_header_literal_counterexample :
    format_retrieved_context (RetrievedContext.mapping [("a", "b")])
      = "**Source documents:**\n- **a:** b"
    ∧ ("**Source documents:**\n- **a:** b").data.take 17
        ≠ ("Source documents:").data
    ∧ "**Source documents:**\n- **a:** b" ≠ "Source documents:\n- a: b" := by
  refine ⟨by rfl, by decide, by decide⟩

/-- C5 amended: for a mapping, the output is the fixed header line
`**Source documents:**` followed by one line per key, in iteration order,
each formatted `- **<key>:** <value>`. -/
theorem mapping_render_amended :
    (∀ entries, format_retrieved_context (RetrievedContext.mapping entries)
        = joinSep "\n" ("**Source documents:**"
            :: entries.map (fun kv => "- **" ++ kv.1 ++ ":** " ++ kv.2)))
  ∧ format_retrieved_context (RetrievedContext.mapping [("a", "b"), ("c", "d")])
      = "**Source documents:**\n- **a:** b\n- **c:** d" := by
  constructor
  · intro entries
    show joinSep "\n"
      (entries.foldl (fun lines kv => lines ++ ["- **" ++ kv.1 ++ ":** " ++ kv.2])
        ["**Source documents:**"]) = _
    rw [mapping_fold_eq]
    rfl
  · rfl

/-- C9: a citation with a missing or empty title gets the fixed fallback
label `Source`, and missing citation, jurisdiction and link fields degrade
to omission of the metadata clause and of the link form (no failure —
the embedding is total). -/
theorem citation_missing_fields_degrade (c : CitationDict)
    (ht : c.title = none ∨ c.title = some "") :
    citTitle c = "Source"
    ∧ ((c.citation = none ∨ c.citation = some "") →
       (c.jurisdiction = none ∨ c.jurisdiction = some "") →
       (c.link = none ∨ c.link = some "") →
       c.SCC_citation ≠ some true →
       citationLine c = "- Source") := by
  have hts : citTitle c = "Source" := by
    rcases ht with h | h <;> simp [citTitle, orFalsy, h]
  refine ⟨hts, ?_⟩
  intro hc hj hl hs
  unfold citationLine
  rw [hts]
  rcases hc with h1 | h1 <;> rcases hj with h2 | h2 <;> rcases hl with h3 | h3 <;>
    simp [h1, h2, h3, hs, orFalsy, joinSep]

/-- Witness for C9: the all-absent citation dictionary renders as the
bare fallback bullet. -/
theorem citation_missing_fields_degrade_witness :
    citTitle ({} : CitationDict) = "Source"
    ∧ citationLine ({} : CitationDict) = "- Source" :=
  ⟨(citation_missing_fields_degrade {} (Or.inl rfl)).1,
   (citation_missing_fields_degrade {} (Or.inl rfl)).2
     (Or.inl rfl) (Or.inl rfl) (Or.inl rfl) (by simp)⟩

/-- No block of the metadata line is the Citations heading: the separator
is `---` and the joined metadata line starts with a marker character, not
`#`. -/
lemma meta_block_ne_heading (d : AnswerDict) :
    ∀ b ∈ metaBlocks d, b ≠ "#### 📚 Citations" := by
  intro b hb
  unfold metaBlocks at hb
  by_cases hmi : metaItems d = []
  · simp [hmi] at hb
  · rw [if_neg hmi] at hb
    simp only [List.mem_cons, List.not_mem_nil, or_false] at hb
    rcases hb with hb | hb
    · subst hb; decide
    · subst hb
      rcases hconf : d.confidence_score with _ | s
      · rcases hj : d.judgement with _ | j
        · exact absurd (by simp [metaItems, confItems, judgeItems, hconf, hj]) hmi
        · by_cases hje : j = ""
          · exact absurd
              (by simp [metaItems, confItems, judgeItems, hconf, hj, hje]) hmi
          · have hm : metaItems d = ["⚖️ **Status:** " ++ j] := by
              simp [metaItems, confItems, judgeItems, hconf, hj, hje]
            rw [hm]
            show "⚖️ **Status:** " ++ j ≠ _
            exact append_left_ne _ _ _ 1 (by decide) (by decide)
      · have hm : metaItems d
            = (confEmoji s ++ " **Confidence:** " ++ fmt2 s) :: judgeItems d := by
          simp [metaItems, confItems, hconf]
        rw [hm]
        obtain ⟨t, ht⟩ := joinSep_cons_exists " • "
          (confEmoji s ++ " **Confidence:** " ++ fmt2 s) (judgeItems d)
        rw [ht, String.append_assoc]
        unfold confEmoji
        split_ifs
        · exact append_left_ne _ _ _ 1 (by decide) (by decide)
        · exact append_left_ne _ _ _ 1 (by decide) (by decide)
        · exact append_left_ne _ _ _ 1 (by decide) (by decide)

/-- C7: with an empty (or absent) citations sequence, the citations
section contributes nothing: the block list is just the core sections and
the metadata blocks, and the Citations heading appears nowhere in it. -/
theorem no_citations_section (d : AnswerDict)
    (h : d.citations = none ∨ d.citations = some []) :
    citationBlocks d = []
    ∧ mdBlocks d = coreBlocks d ++ metaBlocks d
    ∧ "#### 📚 Citations" ∉ mdBlocks d := by
  have hcb : citationBlocks d = [] := by
    rcases h with h | h <;> simp [citationBlocks, h]
  have hmd : mdBlocks d = coreBlocks d ++ metaBlocks d := by
    simp [mdBlocks, hcb]
  refine ⟨hcb, hmd, ?_⟩
  rw [hmd]
  intro hmem
  rcases List.mem_append.mp hmem with hcore | hmeta
  · simp only [coreBlocks, List.mem_cons, List.not_mem_nil, or_false] at hcore
    rcases hcore with h1 | h1 | h1 | h1 | h1 | h1 | h1 | h1 | h1 <;>
      first
        | exact absurd h1 (by decide)
        | exact append_left_ne _ _ _ 6 (by decide) (by decide) h1.symm
  · exact meta_block_ne_heading d _ hmeta rfl

/-- Witness for C7 at the all-absent dictionary. -/
theorem no_citations_section_witness :
    citationBlocks emptyAnswer = []
    ∧ mdBlocks emptyAnswer = coreBlocks emptyAnswer ++ metaBlocks emptyAnswer
    ∧ "#### 📚 Citations" ∉ mdBlocks emptyAnswer :=
  no_citations_section emptyAnswer (Or.inl rfl)

/-- C8: with all optional fields absent (no citations, no judgement, no
confidence score) the renderer is total and yields exactly the five core
sections — missing core fields render as empty bodies — and the metadata
line is omitted entirely, as the concrete all-absent instance shows. -/
theorem all_optional_absent_renders (d : AnswerDict)
    (hc : d.citations = none ∨ d.citations = some [])
    (hj : d.judgement = none ∨ d.judgement = some "")
    (hs : d.confidence_score = none) :
    lra_to_markdown (LraInput.record d) = joinSep "\n\n" (coreBlocks d)
    ∧ citationBlocks d = [] ∧ metaBlocks d = []
    ∧ lra_to_markdown (LraInput.record emptyAnswer)
        = "#### 📋 Issue\n\n\n---\n\n#### 💡 Short Answer\n\n\n---\n\n#### ⚖️ Legal Rule\n\n\n---\n\n#### 🔍 Analysis\n\n\n---\n\n#### ✅ Conclusion\n" := by
  have hcb : citationBlocks d = [] := by
    rcases hc with h | h <;> simp [citationBlocks, h]
  have hmb : metaBlocks d = [] := by
    have hmi : metaItems d = [] := by
      rcases hj with h | h <;> simp [metaItems, confItems, judgeItems, hs, h]
    simp [metaBlocks, hmi]
  refine ⟨?_, hcb, hmb, by rfl⟩
  show joinSep "\n\n" (mdBlocks d) = _
  rw [mdBlocks, hcb, hmb]
  simp

/-- Witness for C8 at the all-absent dictionary. -/
theorem all_optional_absent_renders_witness :
    lra_to_markdown (LraInput.record emptyAnswer)
      = joinSep "\n\n" (coreBlocks emptyAnswer)
    ∧ citationBlocks emptyAnswer = [] ∧ metaBlocks emptyAnswer = []
    ∧ lra_to_markdown (LraInput.record emptyAnswer)
        = "#### 📋 Issue\n\n\n---\n\n#### 💡 Short Answer\n\n\n---\n\n#### ⚖️ Legal Rule\n\n\n---\n\n#### 🔍 Analysis\n\n\n---\n\n#### ✅ Conclusion\n" :=
  all_optional_absent_renders emptyAnswer (Or.inl rfl) (Or.inl rfl) rfl
